import Mathlib

/-!
Verification development for the 3D instances editor components of GDevelop,
found under newIDE/app/src/InstancesEditor: SelectedInstances3D.js,
Gizmo3DController.js and FreeCameraController.js.

Modelling choices, shared by all definitions below:

* JavaScript numbers are modelled as rationals.
* A THREE.Object3D is identified by a numeric id `oid`; its chain of parent
  references is the list `ancestors` (id of the parent first, then the
  grandparent, and so on), which is exactly the chain walked by
  `SelectedInstances3D._isChildOf`.
* A JavaScript `Map` keyed by object reference is modelled as an association
  list looked up by the identity of the key.
* The external constant `Math.PI` and the external functions `Math.sin`,
  `Math.cos` and `THREE.Object3D.lookAt` do not have rational values, so the
  functions of the embedding that call them take them as extra parameters
  (`piv`, `sinq`, `cosq`, `lookAtQuat`).
* Capability-checked members of a gdInitialInstance (patterns of the shape
  `if (instance.setZ) ...` in the source) are modelled by Boolean capability
  flags on the instance record.
-/

structure Vec3 where
  x : ℚ
  y : ℚ
  z : ℚ
deriving DecidableEq, Repr, Inhabited

structure Quat where
  qx : ℚ
  qy : ℚ
  qz : ℚ
  qw : ℚ
deriving DecidableEq, Repr, Inhabited

/-- Gizmo mode, one of the string values "translate", "rotate", "scale". -/
inductive Mode where
  | translate
  | rotate
  | scale
deriving DecidableEq, Repr, Inhabited

/-- Gizmo space, one of the string values "local", "world". -/
inductive Space where
  | localSpace
  | worldSpace
deriving DecidableEq, Repr, Inhabited

/-- The userData side channel written by Gizmo3DController
`_updateObject3DFromControls` and consumed by SelectedInstances3D
`_onObjectChanged`. The three snapshot fields are absent (undefined) until the
widget first writes them, hence `Option`. -/
structure UserData where
  needsUpdate : Bool
  position : Option Vec3
  rotation : Option Vec3
  scale : Option Vec3
deriving DecidableEq, Repr, Inhabited

/-- A THREE.Object3D as used by the editor code: an identity, the chain of
ids of its ancestors (parent first), its live transform, and the userData
side channel. -/
structure Object3D where
  oid : ℕ
  ancestors : List ℕ
  position : Vec3
  rotation : Vec3
  scale : Vec3
  userData : UserData
deriving DecidableEq, Repr, Inhabited

/-- A gdInitialInstance as seen from SelectedInstances3D.js: the numeric
fields reached through its getters and setters, plus one Boolean flag per
capability-checked member (`hasCustomSize`, `setZ`, `getDepth`, `setAngle`,
`setRotationX`, `setRotationY`, `_getOriginalWidth`, `_getOriginalHeight`,
`setDepth`, `_getOriginalDepth`). The fields `originalWidth`,
`originalHeight`, `originalDepth` are the values returned by the
corresponding `_getOriginal*` members when those are present. `iid` is the
JavaScript object identity of the instance. -/
structure GdInitialInstance where
  iid : ℕ
  x : ℚ
  y : ℚ
  z : ℚ
  width : ℚ
  height : ℚ
  depth : ℚ
  angle : ℚ
  rotationX : ℚ
  rotationY : ℚ
  hasCustomSize : Bool
  hasSetZ : Bool
  hasGetDepth : Bool
  hasSetAngle : Bool
  hasSetRotationX : Bool
  hasSetRotationY : Bool
  hasGetOriginalWidth : Bool
  originalWidth : ℚ
  hasGetOriginalHeight : Bool
  originalHeight : ℚ
  hasSetDepth : Bool
  hasGetOriginalDepth : Bool
  originalDepth : ℚ
deriving DecidableEq, Repr, Inhabited

/-- SelectedInstances3D `_isChildOf(child, parent)`: walk the parent chain of
`child` looking for `parentObj`. -/
def SelectedInstances3D.isChildOf (child parentObj : Object3D) : Bool :=
  child.ancestors.contains parentObj.oid

/-- The match test of SelectedInstances3D `_findInstanceForObject`:
`obj === object || obj.parent === object || this._isChildOf(obj, object)`. -/
def SelectedInstances3D.objectMatches (obj object : Object3D) : Bool :=
  obj.oid == object.oid || obj.ancestors.head? == some object.oid
    || SelectedInstances3D.isChildOf obj object

/-- SelectedInstances3D `_findInstanceForObject`: first entry of the
instance-to-object map whose mapped object matches the edited object. -/
def SelectedInstances3D.findInstanceForObject
    (imap : List (GdInitialInstance × Object3D)) (object : Object3D) :
    Option GdInitialInstance :=
  (imap.find? (fun p => SelectedInstances3D.objectMatches p.2 object)).map
    (fun p => p.1)

/-- Translate branch of SelectedInstances3D `_onObjectChanged`: set X and Y
from the widget position minus half the width and height, and set Z the same
way (minus half the depth, or 0 when `getDepth` is absent) when the instance
has `hasCustomSize` and `setZ`. Returns the updated instance together with
the names of the setters invoked. -/
def SelectedInstances3D.applyTranslate (inst : GdInitialInstance) (p : Vec3) :
    GdInitialInstance × List String :=
  let i1 := { inst with x := p.x - inst.width / 2 }
  let i2 := { i1 with y := p.y - i1.height / 2 }
  if inst.hasCustomSize && inst.hasSetZ then
    ({ i2 with z := p.z - (if inst.hasGetDepth then inst.depth else 0) / 2 },
      ["setX", "setY", "setZ"])
  else
    (i2, ["setX", "setY"])

/-- Rotate branch of SelectedInstances3D `_onObjectChanged`: each of
`setAngle`, `setRotationX`, `setRotationY` is called, when present, with the
corresponding widget Euler component times 180 divided by `piv` (the
parameter standing for `Math.PI`). -/
def SelectedInstances3D.applyRotate (piv : ℚ) (inst : GdInitialInstance)
    (r : Vec3) : GdInitialInstance × List String :=
  let a :=
    if inst.hasSetAngle then
      ({ inst with angle := r.z * 180 / piv }, ["setAngle"])
    else (inst, [])
  let b :=
    if inst.hasSetRotationX then
      ({ a.1 with rotationX := r.x * 180 / piv }, a.2 ++ ["setRotationX"])
    else a
  if inst.hasSetRotationY then
    ({ b.1 with rotationY := r.y * 180 / piv }, b.2 ++ ["setRotationY"])
  else b

/-- Scale branch of SelectedInstances3D `_onObjectChanged`: width and height
are set to the original dimension (from `_getOriginalWidth` or
`_getOriginalHeight` when present, the current dimension otherwise) times the
absolute value of the widget scale component; depth likewise but only when
both `setDepth` and `_getOriginalDepth` are present. -/
def SelectedInstances3D.applyScale (inst : GdInitialInstance) (sc : Vec3) :
    GdInitialInstance × List String :=
  let originalWidth :=
    if inst.hasGetOriginalWidth then inst.originalWidth else inst.width
  let originalHeight :=
    if inst.hasGetOriginalHeight then inst.originalHeight else inst.height
  let i1 := { inst with width := originalWidth * |sc.x| }
  let i2 := { i1 with height := originalHeight * |sc.y| }
  if inst.hasSetDepth && inst.hasGetOriginalDepth then
    ({ i2 with depth := inst.originalDepth * |sc.z| },
      ["setWidth", "setHeight", "setDepth"])
  else
    (i2, ["setWidth", "setHeight"])

/-- Observable outcome of one run of SelectedInstances3D `_onObjectChanged`:
the matched instance after the edit (none when no instance matched), the
object userData afterwards, the argument of the `_onInstanceTransformed`
callback when it fired, and the list of instance setters invoked. -/
structure ObjectChangedOutcome where
  foundInstance : Option GdInitialInstance
  userData : UserData
  transformedCallback : Option (GdInitialInstance × Mode)
  settersCalled : List String
deriving DecidableEq, Repr, Inhabited

/-- SelectedInstances3D `_onObjectChanged(object, transformType)`: find the
instance matched to the object; when found and `userData.needsUpdate` is set,
run the branch for the transform type (falling through to no setter calls
when the corresponding snapshot is absent), clear the flag and fire the
callback. `piv` stands for `Math.PI`. -/
def SelectedInstances3D.onObjectChanged (piv : ℚ)
    (imap : List (GdInitialInstance × Object3D))
    (object : Object3D) (transformType : Mode) : ObjectChangedOutcome :=
  match SelectedInstances3D.findInstanceForObject imap object with
  | none =>
      { foundInstance := none, userData := object.userData,
        transformedCallback := none, settersCalled := [] }
  | some inst =>
      if object.userData.needsUpdate then
        let r :=
          match transformType, object.userData.position,
              object.userData.rotation, object.userData.scale with
          | Mode.translate, some p, _, _ =>
              SelectedInstances3D.applyTranslate inst p
          | Mode.rotate, _, some rot, _ =>
              SelectedInstances3D.applyRotate piv inst rot
          | Mode.scale, _, _, some sc =>
              SelectedInstances3D.applyScale inst sc
          | _, _, _, _ => (inst, [])
        { foundInstance := some r.1,
          userData := { object.userData with needsUpdate := false },
          transformedCallback := some (r.1, transformType),
          settersCalled := r.2 }
      else
        { foundInstance := some inst, userData := object.userData,
          transformedCallback := none, settersCalled := [] }

/-- State of the third-party THREE TransformControls widget, reduced to what
Gizmo3DController reads and writes: the attached object, mode, space, size,
the enabled and visible flags and the dragging flag. -/
structure TransformControls where
  attachedObject : Option Object3D
  mode : Mode
  space : Space
  size : ℚ
  enabled : Bool
  visible : Bool
  dragging : Bool
deriving DecidableEq, Repr, Inhabited

def TransformControls.attach (t : TransformControls) (o : Object3D) :
    TransformControls :=
  { t with attachedObject := some o }

def TransformControls.detach (t : TransformControls) : TransformControls :=
  { t with attachedObject := none }

def TransformControls.setMode (t : TransformControls) (m : Mode) :
    TransformControls :=
  { t with mode := m }

def TransformControls.setSpace (t : TransformControls) (sp : Space) :
    TransformControls :=
  { t with space := sp }

def TransformControls.getSpace (t : TransformControls) : Space := t.space

/-- TransformControls as configured by the Gizmo3DController constructor:
`setMode(translate)`, `setSize(0.8)`, `setSpace(local)`, nothing
attached, not dragging. -/
def TransformControls.init : TransformControls :=
  { attachedObject := none, mode := Mode.translate, space := Space.localSpace,
    size := 8 / 10, enabled := true, visible := false, dragging := false }

/-- State of a Gizmo3DController: the wrapped TransformControls plus the
fields `_currentObject`, `_currentMode`, `_isEnabled`. -/
structure Gizmo3DController where
  transformControls : TransformControls
  currentObject : Option Object3D
  currentMode : Mode
  isEnabled : Bool
deriving DecidableEq, Repr, Inhabited

/-- Gizmo3DController state right after its constructor ran. -/
def Gizmo3DController.init : Gizmo3DController :=
  { transformControls := TransformControls.init,
    currentObject := none, currentMode := Mode.translate, isEnabled := false }

/-- Gizmo3DController `setObject(object)`: remember the object, detach the
widget, and re-attach it to the object when one is given and the controller
is enabled. -/
def Gizmo3DController.setObject (g : Gizmo3DController)
    (object : Option Object3D) : Gizmo3DController :=
  let g1 := { g with currentObject := object,
                     transformControls := g.transformControls.detach }
  match object with
  | some o =>
      if g1.isEnabled then
        { g1 with transformControls := g1.transformControls.attach o }
      else g1
  | none => g1

/-- Gizmo3DController `setMode(mode)`. -/
def Gizmo3DController.setMode (g : Gizmo3DController) (m : Mode) :
    Gizmo3DController :=
  { g with currentMode := m, transformControls := g.transformControls.setMode m }

/-- Gizmo3DController `toggleSpace()`: read the current space from the widget
and set the other one. -/
def Gizmo3DController.toggleSpace (g : Gizmo3DController) : Gizmo3DController :=
  let currentSpace := g.transformControls.getSpace
  let next := if currentSpace = Space.localSpace then Space.worldSpace
    else Space.localSpace
  { g with transformControls := g.transformControls.setSpace next }

/-- Gizmo3DController `setEnabled(enabled)`: mirror the flag onto the widget,
detach when disabling, and re-attach the remembered object when enabling. -/
def Gizmo3DController.setEnabled (g : Gizmo3DController) (enabled : Bool) :
    Gizmo3DController :=
  let g1 := { g with isEnabled := enabled,
                     transformControls :=
                       { g.transformControls with enabled := enabled,
                                                  visible := enabled } }
  if !enabled then
    { g1 with transformControls := g1.transformControls.detach }
  else
    match g1.currentObject with
    | some o => { g1 with transformControls := g1.transformControls.attach o }
    | none => g1

def Gizmo3DController.isDragging (g : Gizmo3DController) : Bool :=
  g.transformControls.dragging

def Gizmo3DController.getCurrentMode (g : Gizmo3DController) : Mode :=
  g.currentMode

/-- State of a SelectedInstances3D: the optional gizmo controller (absent
when the constructor was given no full 3D context), the stored selection and
instance-to-object map, `_currentMode` and `_enabled`. -/
structure SelectedInstances3D where
  gizmoController : Option Gizmo3DController
  selectedInstances : List GdInitialInstance
  instanceToObjectMap : List (GdInitialInstance × Object3D)
  currentMode : Mode
  enabled : Bool
deriving DecidableEq, Repr, Inhabited

/-- SelectedInstances3D constructor: the gizmo controller is created exactly
when the renderer, camera and scene are all non-null, summarised by the flag
`has3DContext`. -/
def SelectedInstances3D.mk3D (has3DContext : Bool) : SelectedInstances3D :=
  { gizmoController :=
      if has3DContext then some Gizmo3DController.init else none,
    selectedInstances := [], instanceToObjectMap := [],
    currentMode := Mode.translate, enabled := false }

/-- Lookup in the instance-to-object map, `Map.get` keyed by the identity of
the instance. -/
def SelectedInstances3D.mapGet (imap : List (GdInitialInstance × Object3D))
    (inst : GdInitialInstance) : Option Object3D :=
  (imap.find? (fun p => p.1.iid == inst.iid)).map (fun p => p.2)

/-- SelectedInstances3D `updateSelection(instances, instanceToObjectMap)`:
store both arguments; then, when a gizmo controller exists, attach it to the
node mapped to the single selected instance when the selection is a singleton
and syncing is enabled, and detach it in every other case. -/
def SelectedInstances3D.updateSelection (s : SelectedInstances3D)
    (instances : List GdInitialInstance)
    (imap : List (GdInitialInstance × Object3D)) : SelectedInstances3D :=
  let s1 : SelectedInstances3D :=
    { s with selectedInstances := instances, instanceToObjectMap := imap }
  match s1.gizmoController with
  | none => s1
  | some g =>
      if instances.length == 1 && s1.enabled then
        match SelectedInstances3D.mapGet imap instances.headI with
        | some object =>
            { s1 with gizmoController := some (g.setObject (some object)) }
        | none =>
            { s1 with gizmoController := some (g.setObject none) }
      else
        { s1 with gizmoController := some (g.setObject none) }

/-- SelectedInstances3D `setMode(mode)`: record the mode, and forward it to
the gizmo controller when one exists. -/
def SelectedInstances3D.setMode (s : SelectedInstances3D) (mode : Mode) :
    SelectedInstances3D :=
  { s with currentMode := mode,
           gizmoController :=
             s.gizmoController.map (fun g => g.setMode mode) }

/-- SelectedInstances3D `toggleSpace()`. -/
def SelectedInstances3D.toggleSpace (s : SelectedInstances3D) :
    SelectedInstances3D :=
  { s with gizmoController :=
      s.gizmoController.map Gizmo3DController.toggleSpace }

/-- SelectedInstances3D `setEnabled(enabled)`: record the flag; when a gizmo
controller exists forward it, then re-attach to the single selected instance
when enabling with a singleton selection, or detach when disabling. -/
def SelectedInstances3D.setEnabled (s : SelectedInstances3D) (enabled : Bool) :
    SelectedInstances3D :=
  let s1 : SelectedInstances3D := { s with enabled := enabled }
  match s1.gizmoController with
  | none => s1
  | some g =>
      let g1 := g.setEnabled enabled
      if enabled && s1.selectedInstances.length == 1 then
        match SelectedInstances3D.mapGet s1.instanceToObjectMap
            s1.selectedInstances.headI with
        | some object =>
            { s1 with gizmoController := some (g1.setObject (some object)) }
        | none => { s1 with gizmoController := some g1 }
      else if !enabled then
        { s1 with gizmoController := some (g1.setObject none) }
      else
        { s1 with gizmoController := some g1 }

def SelectedInstances3D.isDragging (s : SelectedInstances3D) : Bool :=
  match s.gizmoController with
  | some g => g.isDragging
  | none => false

def SelectedInstances3D.getCurrentMode (s : SelectedInstances3D) : Mode :=
  s.currentMode

def SelectedInstances3D.getCurrentSpace (s : SelectedInstances3D) : Space :=
  match s.gizmoController with
  | some g => g.transformControls.getSpace
  | none => Space.localSpace

def SelectedInstances3D.isAvailable (s : SelectedInstances3D) : Bool :=
  s.gizmoController.isSome

/-- SelectedInstances3D `dispose()`: drop the gizmo controller and clear the
stored map. -/
def SelectedInstances3D.dispose (s : SelectedInstances3D) :
    SelectedInstances3D :=
  { s with gizmoController := none, instanceToObjectMap := [] }

/-- One externally triggered operation on a SelectedInstances3D. -/
inductive SelOp where
  | update (instances : List GdInitialInstance)
      (imap : List (GdInitialInstance × Object3D))
  | setMode (mode : Mode)
  | toggleSpace
  | setEnabled (enabled : Bool)
  | dispose
deriving Repr

def SelectedInstances3D.step (s : SelectedInstances3D) :
    SelOp → SelectedInstances3D
  | SelOp.update instances imap => s.updateSelection instances imap
  | SelOp.setMode m => s.setMode m
  | SelOp.toggleSpace => s.toggleSpace
  | SelOp.setEnabled e => s.setEnabled e
  | SelOp.dispose => s.dispose

def SelectedInstances3D.run (s : SelectedInstances3D) (ops : List SelOp) :
    SelectedInstances3D :=
  ops.foldl SelectedInstances3D.step s

/-- The operations named by the attachment invariant claim: updateSelection
and setEnabled. -/
def SelOp.isSelectionSyncOp : SelOp → Bool
  | SelOp.update _ _ => true
  | SelOp.setEnabled _ => true
  | _ => false

/-- Modelled from the spec: the node the gizmo should be attached to, namely
the node mapped to the sole selected instance when syncing is enabled and the
selection is a singleton, and none otherwise. This is the specification side
of the attachment claim, to be compared with the attachment kept by the code. -/
def SelectedInstances3D.specSoleSelectionTarget (s : SelectedInstances3D) :
    Option Object3D :=
  if s.enabled && s.selectedInstances.length == 1 then
    SelectedInstances3D.mapGet s.instanceToObjectMap s.selectedInstances.headI
  else none

/-- The object the gizmo widget is attached to, none when no gizmo controller
exists. -/
def SelectedInstances3D.gizmoAttachedObject (s : SelectedInstances3D) :
    Option Object3D :=
  match s.gizmoController with
  | some g => g.transformControls.attachedObject
  | none => none

/-- Inductive invariant of the selection-to-gizmo synchronisation: whenever a
gizmo controller exists, its enabled flag mirrors the `_enabled` flag of the
owner, and both its remembered object and the widget attachment equal the
node mapped to the sole selected instance (none unless syncing is enabled and
the selection is a singleton mapped in the map). -/
def SelectedInstances3D.Inv (s : SelectedInstances3D) : Prop :=
  ∀ g, s.gizmoController = some g →
    g.isEnabled = s.enabled ∧
    g.transformControls.attachedObject = s.specSoleSelectionTarget ∧
    g.currentObject = s.specSoleSelectionTarget

def Vec3.add (a b : Vec3) : Vec3 :=
  ⟨a.x + b.x, a.y + b.y, a.z + b.z⟩

def Vec3.smul (c : ℚ) (v : Vec3) : Vec3 :=
  ⟨c * v.x, c * v.y, c * v.z⟩

def Vec3.cross (a b : Vec3) : Vec3 :=
  ⟨a.y * b.z - a.z * b.y, a.z * b.x - a.x * b.z, a.x * b.y - a.y * b.x⟩

/-- THREE.Vector3.applyQuaternion, the exact rational rotation formula
v + 2 w (u × v) + 2 (u × (u × v)) with u the vector part of the quaternion. -/
def Vec3.applyQuaternion (v : Vec3) (q : Quat) : Vec3 :=
  let u : Vec3 := ⟨q.qx, q.qy, q.qz⟩
  let t := Vec3.cross u v
  v.add ((Vec3.smul (2 * q.qw) t).add (Vec3.smul 2 (Vec3.cross u t)))

/-- THREE.Spherical: radius, polar angle phi, azimuthal angle theta. -/
structure Spherical where
  radius : ℚ
  theta : ℚ
  phi : ℚ
deriving DecidableEq, Repr, Inhabited

/-- Camera fields read or written by FreeCameraController: position,
orientation quaternion, and the first two columns of the camera matrix (the
local right and up vectors used by the pan computation). -/
structure CameraState where
  position : Vec3
  quaternion : Quat
  matrixCol0 : Vec3
  matrixCol1 : Vec3
deriving DecidableEq, Repr, Inhabited

structure FCMouseEvent where
  button : ℕ
  clientX : ℚ
  clientY : ℚ
deriving DecidableEq, Repr, Inhabited

structure FCWheelEvent where
  deltaY : ℚ
deriving DecidableEq, Repr, Inhabited

structure FCKeyEvent where
  code : String
deriving DecidableEq, Repr, Inhabited

/-- State of a FreeCameraController: the camera, the pan target, mouse state,
current and target spherical coordinates and distance, the keyboard state (a
predicate over key codes, mirroring the `_keys` dictionary), and the settings
and limits fields of the source. -/
structure FreeCameraController where
  camera : CameraState
  target : Vec3
  isMouseDown : Bool
  mouseButton : ℕ
  lastMouseX : ℚ
  lastMouseY : ℚ
  spherical : Spherical
  sphericalTarget : Spherical
  distance : ℚ
  targetDistance : ℚ
  keys : String → Bool
  keyMoveSpeed : ℚ
  enableKeys : Bool
  enableRotate : Bool
  enableZoom : Bool
  enablePan : Bool
  rotateSpeed : ℚ
  zoomSpeed : ℚ
  panSpeed : ℚ
  minDistance : ℚ
  maxDistance : ℚ
  minPolarAngle : ℚ
  maxPolarAngle : ℚ
  isEnabled : Bool

/-- FreeCameraController `_onMouseDown`: record the pressed button and mouse
position; no-op while disabled. -/
def FreeCameraController.onMouseDown (s : FreeCameraController)
    (event : FCMouseEvent) : FreeCameraController :=
  if !s.isEnabled then s
  else
    { s with isMouseDown := true, mouseButton := event.button,
             lastMouseX := event.clientX, lastMouseY := event.clientY }

/-- FreeCameraController `_pan(deltaX, deltaY)`: move the pan target along
the camera local right and up vectors (columns 0 and 1 of the camera matrix)
scaled by the pan speed. -/
def FreeCameraController.pan (s : FreeCameraController) (deltaX deltaY : ℚ) :
    FreeCameraController :=
  let panLeft := Vec3.smul (-deltaX * s.panSpeed * (1 / 100)) s.camera.matrixCol0
  let panUp := Vec3.smul (deltaY * s.panSpeed * (1 / 100)) s.camera.matrixCol1
  let panOffset := panLeft.add panUp
  { s with target := s.target.add panOffset }

/-- FreeCameraController `_onMouseMove`: while enabled and a button is down,
button 0 updates the target spherical angles (phi clamped to the polar
limits), button 2 pans, button 1 updates the target distance (clamped); the
last mouse position is recorded in every case. -/
def FreeCameraController.onMouseMove (s : FreeCameraController)
    (event : FCMouseEvent) : FreeCameraController :=
  if !s.isEnabled || !s.isMouseDown then s
  else
    let deltaX := event.clientX - s.lastMouseX
    let deltaY := event.clientY - s.lastMouseY
    let s1 :=
      if s.mouseButton == 0 then
        if s.enableRotate then
          let theta1 := s.sphericalTarget.theta - deltaX * s.rotateSpeed * (1 / 100)
          let phi1 := s.sphericalTarget.phi + deltaY * s.rotateSpeed * (1 / 100)
          let phi2 := max s.minPolarAngle (min s.maxPolarAngle phi1)
          { s with sphericalTarget :=
              { s.sphericalTarget with theta := theta1, phi := phi2 } }
        else s
      else if s.mouseButton == 2 then
        if s.enablePan then s.pan deltaX deltaY else s
      else if s.mouseButton == 1 then
        if s.enableZoom then
          let d1 := s.targetDistance + deltaY * s.zoomSpeed * (5 / 100)
          { s with targetDistance := max s.minDistance (min s.maxDistance d1) }
        else s
      else s
    { s1 with lastMouseX := event.clientX, lastMouseY := event.clientY }

/-- FreeCameraController `_onMouseUp`. -/
def FreeCameraController.onMouseUp (s : FreeCameraController)
    (_event : FCMouseEvent) : FreeCameraController :=
  if !s.isEnabled then s
  else { s with isMouseDown := false }

/-- FreeCameraController `_onWheel`: zoom the target distance, clamped. -/
def FreeCameraController.onWheel (s : FreeCameraController)
    (event : FCWheelEvent) : FreeCameraController :=
  if !s.isEnabled || !s.enableZoom then s
  else
    let d1 := s.targetDistance + event.deltaY * s.zoomSpeed * (1 / 100)
    { s with targetDistance := max s.minDistance (min s.maxDistance d1) }

/-- FreeCameraController `_onKeyDown`. -/
def FreeCameraController.onKeyDown (s : FreeCameraController)
    (event : FCKeyEvent) : FreeCameraController :=
  if !s.isEnabled || !s.enableKeys then s
  else { s with keys := fun c => if c = event.code then true else s.keys c }

/-- FreeCameraController `_onKeyUp`. -/
def FreeCameraController.onKeyUp (s : FreeCameraController)
    (event : FCKeyEvent) : FreeCameraController :=
  if !s.isEnabled || !s.enableKeys then s
  else { s with keys := fun c => if c = event.code then false else s.keys c }

/-- FreeCameraController `_updateKeyboardMovement`: accumulate a movement
vector from the WASDQE keys; when it is nonzero (the `length() > 0` test),
rotate it into camera space and add it to the pan target. -/
def FreeCameraController.updateKeyboardMovement (s : FreeCameraController) :
    FreeCameraController :=
  if !s.enableKeys then s
  else
    let mv0 : Vec3 := ⟨0, 0, 0⟩
    let mv1 := if s.keys ("KeyW") then { mv0 with z := mv0.z - s.keyMoveSpeed } else mv0
    let mv2 := if s.keys ("KeyS") then { mv1 with z := mv1.z + s.keyMoveSpeed } else mv1
    let mv3 := if s.keys ("KeyA") then { mv2 with x := mv2.x - s.keyMoveSpeed } else mv2
    let mv4 := if s.keys ("KeyD") then { mv3 with x := mv3.x + s.keyMoveSpeed } else mv3
    let mv5 := if s.keys ("KeyQ") then { mv4 with y := mv4.y - s.keyMoveSpeed } else mv4
    let mv6 := if s.keys ("KeyE") then { mv5 with y := mv5.y + s.keyMoveSpeed } else mv5
    if mv6 = (⟨0, 0, 0⟩ : Vec3) then s
    else
      let moved := mv6.applyQuaternion s.camera.quaternion
      { s with target := s.target.add moved }

/-- The fixed damping factor of FreeCameraController `update()`. -/
def dampingFactor : ℚ := 1 / 10

/-- FreeCameraController `update()`: no-op while disabled; otherwise apply
keyboard movement, move current theta, phi and distance toward their targets
by the damping factor, then rebuild the camera position from the spherical
coordinates (through the trigonometric parameters `sinq`, `cosq`) and re-aim
the camera at the pan target (through the parameter `lookAtQuat`). -/
def FreeCameraController.update (sinq cosq : ℚ → ℚ)
    (lookAtQuat : Vec3 → Vec3 → Quat) (s : FreeCameraController) :
    FreeCameraController :=
  if !s.isEnabled then s
  else
    let s1 := s.updateKeyboardMovement
    let theta := s1.spherical.theta
      + (s1.sphericalTarget.theta - s1.spherical.theta) * dampingFactor
    let phi := s1.spherical.phi
      + (s1.sphericalTarget.phi - s1.spherical.phi) * dampingFactor
    let dist := s1.distance + (s1.targetDistance - s1.distance) * dampingFactor
    let sph : Spherical := { radius := dist, theta := theta, phi := phi }
    let offset : Vec3 :=
      ⟨dist * sinq phi * sinq theta, dist * cosq phi, dist * sinq phi * cosq theta⟩
    let position := s1.target.add offset
    let cam := { s1.camera with position := position,
                                quaternion := lookAtQuat position s1.target }
    { s1 with spherical := sph, distance := dist, camera := cam }

/-- FreeCameraController `enable()` (listener registration is summarised by
the `isEnabled` flag that every handler checks). -/
def FreeCameraController.enable (s : FreeCameraController) :
    FreeCameraController :=
  if s.isEnabled then s else { s with isEnabled := true }

/-- FreeCameraController `disable()`. -/
def FreeCameraController.disable (s : FreeCameraController) :
    FreeCameraController :=
  if !s.isEnabled then s else { s with isEnabled := false }

/-- FreeCameraController `setTarget(x, y, z)`. -/
def FreeCameraController.setTarget (s : FreeCameraController) (x y z : ℚ) :
    FreeCameraController :=
  { s with target := ⟨x, y, z⟩ }

/-- FreeCameraController `dispose()`. -/
def FreeCameraController.dispose (s : FreeCameraController) :
    FreeCameraController :=
  s.disable

def sampleInstance : GdInitialInstance :=
  { iid := 1, x := 0, y := 0, z := 0, width := 6, height := 8, depth := 0,
    angle := 0, rotationX := 0, rotationY := 0,
    hasCustomSize := true, hasSetZ := true, hasGetDepth := true,
    hasSetAngle := true, hasSetRotationX := true, hasSetRotationY := true,
    hasGetOriginalWidth := true, originalWidth := 10,
    hasGetOriginalHeight := true, originalHeight := 8,
    hasSetDepth := true, hasGetOriginalDepth := true, originalDepth := 4 }

def sampleObject (ud : UserData) : Object3D :=
  { oid := 100, ancestors := [], position := ⟨0, 0, 0⟩,
    rotation := ⟨0, 0, 0⟩, scale := ⟨1, 1, 1⟩, userData := ud }

/-- C2: for every completed translate edit on an instance matched to the
edited node, the instance position is set to the widget position minus half
the instance width and height, and minus half its depth on Z (0 when
`getDepth` is absent) when the instance has the custom-size capability and a
`setZ` setter; when it does not, Z is left unchanged. -/
theorem translate_edit_sets_corner_position (piv : ℚ)
    (imap : List (GdInitialInstance × Object3D)) (object : Object3D)
    (inst : GdInitialInstance) (p : Vec3)
    (hfind : SelectedInstances3D.findInstanceForObject imap object = some inst)
    (hneeds : object.userData.needsUpdate = true)
    (hpos : object.userData.position = some p) :
    (SelectedInstances3D.onObjectChanged piv imap object
        Mode.translate).foundInstance.map GdInitialInstance.x
      = some (p.x - inst.width / 2) ∧
    (SelectedInstances3D.onObjectChanged piv imap object
        Mode.translate).foundInstance.map GdInitialInstance.y
      = some (p.y - inst.height / 2) ∧
    ((inst.hasCustomSize && inst.hasSetZ) = true →
      (SelectedInstances3D.onObjectChanged piv imap object
          Mode.translate).foundInstance.map GdInitialInstance.z
        = some (p.z - (if inst.hasGetDepth then inst.depth else 0) / 2)) ∧
    ((inst.hasCustomSize && inst.hasSetZ) = false →
      (SelectedInstances3D.onObjectChanged piv imap object
          Mode.translate).foundInstance.map GdInitialInstance.z
        = some inst.z) := by
  by_cases hz : (inst.hasCustomSize && inst.hasSetZ) = true <;>
    simp [SelectedInstances3D.onObjectChanged, hfind, hneeds, hpos,
      SelectedInstances3D.applyTranslate, hz]

def translateUD : UserData :=
  { needsUpdate := true, position := some ⟨10, 4, 0⟩,
    rotation := none, scale := none }

def translateObj : Object3D := sampleObject translateUD

def translateMap : List (GdInitialInstance × Object3D) :=
  [(sampleInstance, translateObj)]

/-- Witness for C2 at the concrete example of the spec: widget position
(10, 4, 0) with instance width 6 and height 8 yields instance position
(7, 0). -/
theorem translate_edit_sets_corner_position_witness :
    (SelectedInstances3D.onObjectChanged 3 translateMap translateObj
        Mode.translate).foundInstance.map GdInitialInstance.x = some 7 ∧
    (SelectedInstances3D.onObjectChanged 3 translateMap translateObj
        Mode.translate).foundInstance.map GdInitialInstance.y = some 0 := by
  have h := translate_edit_sets_corner_position 3 translateMap translateObj
    sampleInstance ⟨10, 4, 0⟩ (by decide) (by decide) (by decide)
  have e1 : (⟨10, 4, 0⟩ : Vec3).x - sampleInstance.width / 2 = 7 := by
    norm_num [sampleInstance]
  have e2 : (⟨10, 4, 0⟩ : Vec3).y - sampleInstance.height / 2 = 0 := by
    norm_num [sampleInstance]
  have h1 := h.1
  have h2 := h.2.1
  rw [e1] at h1
  rw [e2] at h2
  exact ⟨h1, h2⟩

/-- C3: for every completed scale edit on a matched instance that exposes the
original dimensions, width and height are set to the original dimension times
the absolute value of the per-axis widget scale factor (so a mirroring
negative sign is discarded), and depth likewise when the instance has both
the `setDepth` and `_getOriginalDepth` members; without them depth is left
unchanged. -/
theorem scale_edit_uses_absolute_value (piv : ℚ)
    (imap : List (GdInitialInstance × Object3D)) (object : Object3D)
    (inst : GdInitialInstance) (sc : Vec3)
    (hfind : SelectedInstances3D.findInstanceForObject imap object = some inst)
    (hneeds : object.userData.needsUpdate = true)
    (hsc : object.userData.scale = some sc)
    (hw : inst.hasGetOriginalWidth = true)
    (hh : inst.hasGetOriginalHeight = true) :
    (SelectedInstances3D.onObjectChanged piv imap object
        Mode.scale).foundInstance.map GdInitialInstance.width
      = some (inst.originalWidth * |sc.x|) ∧
    (SelectedInstances3D.onObjectChanged piv imap object
        Mode.scale).foundInstance.map GdInitialInstance.height
      = some (inst.originalHeight * |sc.y|) ∧
    ((inst.hasSetDepth && inst.hasGetOriginalDepth) = true →
      (SelectedInstances3D.onObjectChanged piv imap object
          Mode.scale).foundInstance.map GdInitialInstance.depth
        = some (inst.originalDepth * |sc.z|)) ∧
    ((inst.hasSetDepth && inst.hasGetOriginalDepth) = false →
      (SelectedInstances3D.onObjectChanged piv imap object
          Mode.scale).foundInstance.map GdInitialInstance.depth
        = some inst.depth) := by
  by_cases hd : (inst.hasSetDepth && inst.hasGetOriginalDepth) = true <;>
    simp [SelectedInstances3D.onObjectChanged, hfind, hneeds, hsc,
      SelectedInstances3D.applyScale, hw, hh, hd]

def scaleUD : UserData :=
  { needsUpdate := true, position := none,
    rotation := none, scale := some ⟨-2, 1, 1⟩ }

def scaleObj : Object3D := sampleObject scaleUD

def scaleMap : List (GdInitialInstance × Object3D) :=
  [(sampleInstance, scaleObj)]

/-- Witness for C3 at the concrete example of the spec: original width 10
with widget scale x equal to -2 yields instance width 20. -/
theorem scale_edit_uses_absolute_value_witness :
    (SelectedInstances3D.onObjectChanged 3 scaleMap scaleObj
        Mode.scale).foundInstance.map GdInitialInstance.width = some 20 := by
  have h := scale_edit_uses_absolute_value 3 scaleMap scaleObj
    sampleInstance ⟨-2, 1, 1⟩ (by decide) (by decide) (by decide)
    (by decide) (by decide)
  have e : sampleInstance.originalWidth * |(⟨-2, 1, 1⟩ : Vec3).x| = 20 := by
    norm_num [sampleInstance]
  have h1 := h.1
  rw [e] at h1
  exact h1

/-- C4: for every completed rotate edit on a matched instance, the yaw angle
is set (through `setAngle`, when the instance exposes it) to the widget Z
rotation times 180 over pi, and the pitch and roll angles are set the same
way from the X and Y rotations exactly when the instance exposes
`setRotationX` and `setRotationY`; absent setters leave the corresponding
angle unchanged. `piv` stands for `Math.PI`, so the factor `180 / piv` is the
radians-to-degrees conversion. -/
theorem rotate_edit_converts_radians_to_degrees (piv : ℚ)
    (imap : List (GdInitialInstance × Object3D)) (object : Object3D)
    (inst : GdInitialInstance) (r : Vec3)
    (hfind : SelectedInstances3D.findInstanceForObject imap object = some inst)
    (hneeds : object.userData.needsUpdate = true)
    (hrot : object.userData.rotation = some r) :
    (inst.hasSetAngle = true →
      (SelectedInstances3D.onObjectChanged piv imap object
          Mode.rotate).foundInstance.map GdInitialInstance.angle
        = some (r.z * 180 / piv)) ∧
    (inst.hasSetAngle = false →
      (SelectedInstances3D.onObjectChanged piv imap object
          Mode.rotate).foundInstance.map GdInitialInstance.angle
        = some inst.angle) ∧
    (inst.hasSetRotationX = true →
      (SelectedInstances3D.onObjectChanged piv imap object
          Mode.rotate).foundInstance.map GdInitialInstance.rotationX
        = some (r.x * 180 / piv)) ∧
    (inst.hasSetRotationX = false →
      (SelectedInstances3D.onObjectChanged piv imap object
          Mode.rotate).foundInstance.map GdInitialInstance.rotationX
        = some inst.rotationX) ∧
    (inst.hasSetRotationY = true →
      (SelectedInstances3D.onObjectChanged piv imap object
          Mode.rotate).foundInstance.map GdInitialInstance.rotationY
        = some (r.y * 180 / piv)) ∧
    (inst.hasSetRotationY = false →
      (SelectedInstances3D.onObjectChanged piv imap object
          Mode.rotate).foundInstance.map GdInitialInstance.rotationY
        = some inst.rotationY) := by
  by_cases ha : inst.hasSetAngle = true <;>
    by_cases hx : inst.hasSetRotationX = true <;>
      by_cases hy : inst.hasSetRotationY = true <;>
        simp [SelectedInstances3D.onObjectChanged, hfind, hneeds, hrot,
          SelectedInstances3D.applyRotate, ha, hx, hy]

def rotateUD : UserData :=
  { needsUpdate := true, position := none,
    rotation := some ⟨0, 0, 3⟩, scale := none }

def rotateObj : Object3D := sampleObject rotateUD

def rotateMap : List (GdInitialInstance × Object3D) :=
  [(sampleInstance, rotateObj)]

/-- Witness for C4 at the concrete example of the spec: a widget Z rotation
equal to pi radians (here the parameter standing for pi) yields instance
angle 180 degrees. -/
theorem rotate_edit_converts_radians_to_degrees_witness :
    (SelectedInstances3D.onObjectChanged 3 rotateMap rotateObj
        Mode.rotate).foundInstance.map GdInitialInstance.angle = some 180 := by
  have h := rotate_edit_converts_radians_to_degrees 3 rotateMap rotateObj
    sampleInstance ⟨0, 0, 3⟩ (by decide) (by decide) (by decide)
  have e : (⟨0, 0, 3⟩ : Vec3).z * 180 / 3 = 180 := by norm_num
  have h1 := h.1 (by decide)
  rw [e] at h1
  exact h1

/-- C9: when the completed-edit handler runs for a node that no instance of
the map matches (by identity, parent or ancestor walk), no instance setter is
invoked, the transformed callback does not fire, and the object userData,
including a pending `needsUpdate` flag, is left exactly as it was. -/
theorem unmatched_edit_changes_nothing (piv : ℚ)
    (imap : List (GdInitialInstance × Object3D)) (object : Object3D)
    (transformType : Mode)
    (hfind : SelectedInstances3D.findInstanceForObject imap object = none) :
    (SelectedInstances3D.onObjectChanged piv imap object
        transformType).foundInstance = none ∧
    (SelectedInstances3D.onObjectChanged piv imap object
        transformType).settersCalled = [] ∧
    (SelectedInstances3D.onObjectChanged piv imap object
        transformType).transformedCallback = none ∧
    (SelectedInstances3D.onObjectChanged piv imap object
        transformType).userData = object.userData := by
  simp [SelectedInstances3D.onObjectChanged, hfind]

def unmatchedObj : Object3D :=
  { oid := 999, ancestors := [], position := ⟨0, 0, 0⟩,
    rotation := ⟨0, 0, 0⟩, scale := ⟨1, 1, 1⟩, userData := translateUD }

/-- Witness for C9: with a pending translate edit on a node absent from the
map, nothing is updated and the pending flag stays set. -/
theorem unmatched_edit_changes_nothing_witness :
    (SelectedInstances3D.onObjectChanged 3 translateMap unmatchedObj
        Mode.translate).transformedCallback = none ∧
    (SelectedInstances3D.onObjectChanged 3 translateMap unmatchedObj
        Mode.translate).settersCalled = [] ∧
    (SelectedInstances3D.onObjectChanged 3 translateMap unmatchedObj
        Mode.translate).userData.needsUpdate = true := by
  have h := unmatched_edit_changes_nothing 3 translateMap unmatchedObj
    Mode.translate (by decide)
  refine ⟨h.2.2.1, h.2.1, ?_⟩
  rw [h.2.2.2]
  decide

theorem Gizmo3DController.setObject_isEnabled (g : Gizmo3DController)
    (ob : Option Object3D) : (g.setObject ob).isEnabled = g.isEnabled := by
  rcases ob with _ | o
  · rfl
  · by_cases he : g.isEnabled = true <;> simp [Gizmo3DController.setObject, he]

theorem Gizmo3DController.setObject_currentObject (g : Gizmo3DController)
    (ob : Option Object3D) : (g.setObject ob).currentObject = ob := by
  rcases ob with _ | o
  · rfl
  · by_cases he : g.isEnabled = true <;> simp [Gizmo3DController.setObject, he]

theorem Gizmo3DController.setObject_attached (g : Gizmo3DController)
    (ob : Option Object3D) :
    (g.setObject ob).transformControls.attachedObject =
      if g.isEnabled = true then ob else none := by
  rcases ob with _ | o <;> by_cases he : g.isEnabled = true <;>
    simp [Gizmo3DController.setObject, he, TransformControls.detach,
      TransformControls.attach]

theorem Gizmo3DController.setEnabled_isEnabled (g : Gizmo3DController)
    (e : Bool) : (g.setEnabled e).isEnabled = e := by
  rcases hco : g.currentObject with _ | o <;> cases e <;>
    simp [Gizmo3DController.setEnabled, hco, TransformControls.detach,
      TransformControls.attach]

theorem Gizmo3DController.setEnabled_currentObject (g : Gizmo3DController)
    (e : Bool) : (g.setEnabled e).currentObject = g.currentObject := by
  rcases hco : g.currentObject with _ | o <;> cases e <;>
    simp [Gizmo3DController.setEnabled, hco, TransformControls.detach,
      TransformControls.attach]

theorem Gizmo3DController.setEnabled_attached (g : Gizmo3DController)
    (e : Bool) :
    (g.setEnabled e).transformControls.attachedObject =
      if e = true then
        (if g.currentObject.isSome then g.currentObject
         else g.transformControls.attachedObject)
      else none := by
  rcases hco : g.currentObject with _ | o <;> cases e <;>
    simp [Gizmo3DController.setEnabled, hco, TransformControls.detach,
      TransformControls.attach]

/-- C7: toggleSpace is an involution on the gizmo space: two calls restore
getCurrentSpace on every state, and on every state where the gizmo exists a
single call swaps local and world. -/
theorem toggleSpace_involution (s : SelectedInstances3D) :
    s.toggleSpace.toggleSpace.getCurrentSpace = s.getCurrentSpace ∧
    (s.isAvailable = true →
      ((s.getCurrentSpace = Space.localSpace →
          s.toggleSpace.getCurrentSpace = Space.worldSpace) ∧
       (s.getCurrentSpace = Space.worldSpace →
          s.toggleSpace.getCurrentSpace = Space.localSpace))) := by
  rcases hg : s.gizmoController with _ | g
  · simp [SelectedInstances3D.toggleSpace, SelectedInstances3D.getCurrentSpace,
      SelectedInstances3D.isAvailable, hg]
  · rcases hsp : g.transformControls.space with _ | _ <;>
      simp [SelectedInstances3D.toggleSpace, SelectedInstances3D.getCurrentSpace,
        SelectedInstances3D.isAvailable, Gizmo3DController.toggleSpace,
        TransformControls.getSpace, TransformControls.setSpace, hg, hsp]

def availSel : SelectedInstances3D := SelectedInstances3D.mk3D true

/-- Witness for C7: on a freshly constructed available SelectedInstances3D
(space local), toggling once gives world and toggling twice restores the
original space. -/
theorem toggleSpace_involution_witness :
    availSel.isAvailable = true ∧
    availSel.toggleSpace.toggleSpace.getCurrentSpace = availSel.getCurrentSpace ∧
    availSel.toggleSpace.getCurrentSpace = Space.worldSpace := by
  have h := toggleSpace_involution availSel
  exact ⟨by decide, h.1, (h.2 (by decide)).1 (by decide)⟩

/-- C10: the gizmo controller remembers the object given to setObject across
enable and disable: setEnabled false detaches the widget but keeps the
remembered object; setObject on a disabled controller records the object
without attaching; a following setEnabled true re-attaches the widget to the
recorded object. -/
theorem gizmo_remembers_object_across_enable (g : Gizmo3DController)
    (o : Object3D) :
    ((g.setEnabled false).currentObject = g.currentObject ∧
     (g.setEnabled false).transformControls.attachedObject = none) ∧
    (g.isEnabled = false →
      ((g.setObject (some o)).currentObject = some o ∧
       (g.setObject (some o)).transformControls.attachedObject = none ∧
       ((g.setObject (some o)).setEnabled true).currentObject = some o ∧
       ((g.setObject (some o)).setEnabled
           true).transformControls.attachedObject = some o)) := by
  refine ⟨⟨Gizmo3DController.setEnabled_currentObject g false, ?_⟩, ?_⟩
  · rw [Gizmo3DController.setEnabled_attached]
    simp
  · intro hdis
    refine ⟨Gizmo3DController.setObject_currentObject g (some o), ?_, ?_, ?_⟩
    · rw [Gizmo3DController.setObject_attached]
      simp [hdis]
    · rw [Gizmo3DController.setEnabled_currentObject,
        Gizmo3DController.setObject_currentObject]
    · rw [Gizmo3DController.setEnabled_attached,
        Gizmo3DController.setObject_currentObject]
      simp

/-- Witness for C10: starting from the freshly constructed (disabled) gizmo
controller, setObject then setEnabled true attaches the widget to the
recorded object. -/
theorem gizmo_remembers_object_across_enable_witness :
    Gizmo3DController.init.isEnabled = false ∧
    ((Gizmo3DController.init.setObject
        (some unmatchedObj)).setEnabled
          true).transformControls.attachedObject = some unmatchedObj := by
  have h := gizmo_remembers_object_across_enable Gizmo3DController.init
    unmatchedObj
  exact ⟨by decide, (h.2 (by decide)).2.2.2⟩

/-- C8: while the controller is disabled, every input handler and update()
returns the state unchanged: the whole camera rig state (current and target
spherical coordinates, distance, pan target, mouse and key state, camera
position) is untouched. -/
theorem camera_disabled_handlers_noop (s : FreeCameraController)
    (hdis : s.isEnabled = false)
    (me : FCMouseEvent) (we : FCWheelEvent) (ke : FCKeyEvent)
    (sinq cosq : ℚ → ℚ) (lookAtQuat : Vec3 → Vec3 → Quat) :
    s.onMouseDown me = s ∧ s.onMouseMove me = s ∧ s.onMouseUp me = s ∧
    s.onWheel we = s ∧ s.onKeyDown ke = s ∧ s.onKeyUp ke = s ∧
    FreeCameraController.update sinq cosq lookAtQuat s = s := by
  simp [FreeCameraController.onMouseDown, FreeCameraController.onMouseMove,
    FreeCameraController.onMouseUp, FreeCameraController.onWheel,
    FreeCameraController.onKeyDown, FreeCameraController.onKeyUp,
    FreeCameraController.update, hdis]

def sampleCameraState : CameraState where
  position := ⟨0, 0, 10⟩
  quaternion := ⟨0, 0, 0, 1⟩
  matrixCol0 := ⟨1, 0, 0⟩
  matrixCol1 := ⟨0, 1, 0⟩

def disabledCameraController : FreeCameraController where
  camera := sampleCameraState
  target := ⟨0, 0, 0⟩
  isMouseDown := true
  mouseButton := 0
  lastMouseX := 3
  lastMouseY := 4
  spherical := ⟨10, 0, 1⟩
  sphericalTarget := ⟨10, 2, 2⟩
  distance := 10
  targetDistance := 20
  keys := fun _ => false
  keyMoveSpeed := 1 / 2
  enableKeys := true
  enableRotate := true
  enableZoom := true
  enablePan := true
  rotateSpeed := 1
  zoomSpeed := 1
  panSpeed := 1
  minDistance := 1 / 10
  maxDistance := 1000
  minPolarAngle := 0
  maxPolarAngle := 3
  isEnabled := false

/-- Witness for C8: on a concrete disabled controller, a mouse move with the
button held, a wheel event and an update all return the state unchanged. -/
theorem camera_disabled_handlers_noop_witness :
    disabledCameraController.isEnabled = false ∧
    disabledCameraController.onMouseMove ⟨0, 7, 9⟩ = disabledCameraController ∧
    disabledCameraController.onWheel ⟨5⟩ = disabledCameraController ∧
    FreeCameraController.update (fun q => q) (fun q => q)
      (fun _ _ => ⟨0, 0, 0, 1⟩) disabledCameraController
      = disabledCameraController := by
  have h := camera_disabled_handlers_noop disabledCameraController rfl
    ⟨0, 7, 9⟩ ⟨5⟩ ⟨"KeyW"⟩ (fun q => q) (fun q => q) (fun _ _ => ⟨0, 0, 0, 1⟩)
  exact ⟨rfl, h.2.1, h.2.2.2.1, h.2.2.2.2.2.2⟩

theorem updateKeyboardMovement_no_keys (s : FreeCameraController)
    (hW : s.keys ("KeyW") = false) (hS : s.keys ("KeyS") = false)
    (hA : s.keys ("KeyA") = false) (hD : s.keys ("KeyD") = false)
    (hQ : s.keys ("KeyQ") = false) (hE : s.keys ("KeyE") = false) :
    s.updateKeyboardMovement = s := by
  by_cases hk : s.enableKeys = true <;>
    simp [FreeCameraController.updateKeyboardMovement, hW, hS, hA, hD, hQ, hE, hk]

/-- Modelled from the spec: the value `updated` is the result of moving
`current` toward `target` by exactly the damping factor times the remaining
delta; consequently the remaining delta shrinks by the factor
(1 - dampingFactor) and the move never overshoots (the remaining delta keeps
its sign and does not grow). -/
def dampedToward (current target updated : ℚ) : Prop :=
  updated = current + (target - current) * dampingFactor ∧
  target - updated = (1 - dampingFactor) * (target - current) ∧
  |target - updated| ≤ |target - current| ∧
  0 ≤ (target - updated) * (target - current)

theorem dampedToward_step (c t : ℚ) :
    dampedToward c t (c + (t - c) * dampingFactor) := by
  unfold dampedToward dampingFactor
  have key : t - (c + (t - c) * (1 / 10)) = 9 / 10 * (t - c) := by ring
  refine ⟨rfl, by ring, ?_, ?_⟩
  · rw [key]
    calc |9 / 10 * (t - c)| = 9 / 10 * |t - c| := by
          rw [abs_mul]
          norm_num
      _ ≤ |t - c| := by nlinarith [abs_nonneg (t - c)]
  · rw [key]
    nlinarith [sq_nonneg (t - c)]

/-- C6: on every enabled controller with no keyboard movement pending, one
update() call moves each of theta, phi and distance toward its target by
exactly dampingFactor times the remaining delta (so the delta shrinks
geometrically by (1 - dampingFactor) and never overshoots), and leaves the
targets themselves unchanged. -/
theorem camera_update_damps_toward_target (sinq cosq : ℚ → ℚ)
    (lookAtQuat : Vec3 → Vec3 → Quat) (s : FreeCameraController)
    (hen : s.isEnabled = true)
    (hW : s.keys ("KeyW") = false) (hS : s.keys ("KeyS") = false)
    (hA : s.keys ("KeyA") = false) (hD : s.keys ("KeyD") = false)
    (hQ : s.keys ("KeyQ") = false) (hE : s.keys ("KeyE") = false) :
    dampedToward s.spherical.theta s.sphericalTarget.theta
      (FreeCameraController.update sinq cosq lookAtQuat s).spherical.theta ∧
    dampedToward s.spherical.phi s.sphericalTarget.phi
      (FreeCameraController.update sinq cosq lookAtQuat s).spherical.phi ∧
    dampedToward s.distance s.targetDistance
      (FreeCameraController.update sinq cosq lookAtQuat s).distance ∧
    (FreeCameraController.update sinq cosq lookAtQuat s).sphericalTarget
      = s.sphericalTarget ∧
    (FreeCameraController.update sinq cosq lookAtQuat s).targetDistance
      = s.targetDistance := by
  have hkm := updateKeyboardMovement_no_keys s hW hS hA hD hQ hE
  refine ⟨?_, ?_, ?_, ?_, ?_⟩ <;>
    simp only [FreeCameraController.update, hen, hkm, Bool.not_true,
      Bool.false_eq_true, if_false] <;>
    exact dampedToward_step _ _

def enabledCameraController : FreeCameraController :=
  { disabledCameraController with isEnabled := true }

/-- Witness for C6: one update on a concrete enabled controller with all
movement keys up damps theta, phi and distance toward their targets. -/
theorem camera_update_damps_toward_target_witness :
    enabledCameraController.isEnabled = true ∧
    dampedToward enabledCameraController.spherical.theta
      enabledCameraController.sphericalTarget.theta
      ((FreeCameraController.update (fun q => q) (fun q => q)
          (fun _ _ => ⟨0, 0, 0, 1⟩) enabledCameraController).spherical.theta) ∧
    dampedToward enabledCameraController.distance
      enabledCameraController.targetDistance
      ((FreeCameraController.update (fun q => q) (fun q => q)
          (fun _ _ => ⟨0, 0, 0, 1⟩) enabledCameraController).distance) := by
  have h := camera_update_damps_toward_target (fun q => q) (fun q => q)
    (fun _ _ => ⟨0, 0, 0, 1⟩) enabledCameraController rfl rfl rfl rfl rfl rfl rfl
  exact ⟨rfl, h.1, h.2.2.1⟩

theorem inv_init (has3D : Bool) : (SelectedInstances3D.mk3D has3D).Inv := by
  intro g hg
  cases has3D <;> simp [SelectedInstances3D.mk3D] at hg
  subst hg
  refine ⟨by decide, by decide, by decide⟩

theorem inv_updateSelection (s : SelectedInstances3D) (h : s.Inv)
    (instances : List GdInitialInstance)
    (imap : List (GdInitialInstance × Object3D)) :
    (s.updateSelection instances imap).Inv := by
  intro g2 hg2
  rcases hgc : s.gizmoController with _ | g
  · simp [SelectedInstances3D.updateSelection, hgc] at hg2
  · have hsync := (h g hgc).1
    by_cases hc : (instances.length == 1 && s.enabled) = true
    · rw [Bool.and_eq_true] at hc
      rcases hm : SelectedInstances3D.mapGet imap instances.headI with _ | o
      · simp [SelectedInstances3D.updateSelection, hgc, hc.1, hc.2, hm] at hg2
        subst hg2
        simp [SelectedInstances3D.updateSelection, hgc, hc.1, hc.2, hm,
          SelectedInstances3D.specSoleSelectionTarget,
          Gizmo3DController.setObject_isEnabled,
          Gizmo3DController.setObject_attached,
          Gizmo3DController.setObject_currentObject, hsync]
      · simp [SelectedInstances3D.updateSelection, hgc, hc.1, hc.2, hm] at hg2
        subst hg2
        simp [SelectedInstances3D.updateSelection, hgc, hc.1, hc.2, hm,
          SelectedInstances3D.specSoleSelectionTarget,
          Gizmo3DController.setObject_isEnabled,
          Gizmo3DController.setObject_attached,
          Gizmo3DController.setObject_currentObject, hsync]
    · simp only [Bool.not_eq_true] at hc
      have hcf2 : (s.enabled && instances.length == 1) = false := by
        rw [Bool.and_comm] at hc
        exact hc
      simp [SelectedInstances3D.updateSelection, hgc, hc] at hg2
      subst hg2
      simp [SelectedInstances3D.updateSelection, hgc, hc, hcf2,
        SelectedInstances3D.specSoleSelectionTarget,
        Gizmo3DController.setObject_isEnabled,
        Gizmo3DController.setObject_attached,
        Gizmo3DController.setObject_currentObject, hsync]

theorem inv_setMode (s : SelectedInstances3D) (h : s.Inv) (m : Mode) :
    (s.setMode m).Inv := by
  intro g2 hg2
  rcases hgc : s.gizmoController with _ | g
  · simp [SelectedInstances3D.setMode, hgc] at hg2
  · obtain ⟨h1, h2, h3⟩ := h g hgc
    simp [SelectedInstances3D.setMode, hgc] at hg2
    subst hg2
    refine ⟨?_, ?_, ?_⟩
    · simp [SelectedInstances3D.setMode, hgc, Gizmo3DController.setMode, h1]
    · simp only [SelectedInstances3D.setMode, hgc]
      simpa [Gizmo3DController.setMode, TransformControls.setMode,
        SelectedInstances3D.specSoleSelectionTarget] using h2
    · simp only [SelectedInstances3D.setMode, hgc]
      simpa [Gizmo3DController.setMode, TransformControls.setMode,
        SelectedInstances3D.specSoleSelectionTarget] using h3

theorem inv_toggleSpace (s : SelectedInstances3D) (h : s.Inv) :
    s.toggleSpace.Inv := by
  intro g2 hg2
  rcases hgc : s.gizmoController with _ | g
  · simp [SelectedInstances3D.toggleSpace, hgc] at hg2
  · obtain ⟨h1, h2, h3⟩ := h g hgc
    simp [SelectedInstances3D.toggleSpace, hgc] at hg2
    subst hg2
    refine ⟨?_, ?_, ?_⟩
    · simp [SelectedInstances3D.toggleSpace, hgc,
        Gizmo3DController.toggleSpace, TransformControls.setSpace,
        TransformControls.getSpace, h1]
    · simp only [SelectedInstances3D.toggleSpace, hgc]
      simpa [Gizmo3DController.toggleSpace, TransformControls.setSpace,
        TransformControls.getSpace,
        SelectedInstances3D.specSoleSelectionTarget] using h2
    · simp only [SelectedInstances3D.toggleSpace, hgc]
      simpa [Gizmo3DController.toggleSpace, TransformControls.setSpace,
        TransformControls.getSpace,
        SelectedInstances3D.specSoleSelectionTarget] using h3

theorem inv_setEnabled (s : SelectedInstances3D) (h : s.Inv) (e : Bool) :
    (s.setEnabled e).Inv := by
  intro g2 hg2
  rcases hgc : s.gizmoController with _ | g
  · simp [SelectedInstances3D.setEnabled, hgc] at hg2
  · obtain ⟨h1, h2, h3⟩ := h g hgc
    by_cases hc : (e && s.selectedInstances.length == 1) = true
    · rw [Bool.and_eq_true] at hc
      rcases hm : SelectedInstances3D.mapGet s.instanceToObjectMap
          s.selectedInstances.headI with _ | o
      · have hspec : s.specSoleSelectionTarget = none := by
          simp [SelectedInstances3D.specSoleSelectionTarget, hc.2, hm]
        rw [hspec] at h2 h3
        simp [SelectedInstances3D.setEnabled, hgc, hc.1, hc.2, hm] at hg2
        subst hg2
        refine ⟨?_, ?_, ?_⟩
        · simp [SelectedInstances3D.setEnabled, hgc, hc.1, hc.2, hm,
            Gizmo3DController.setEnabled_isEnabled]
        · simp only [SelectedInstances3D.setEnabled, hgc]
          simp [Gizmo3DController.setEnabled_attached, hc.1, hc.2, hm, h2, h3,
            SelectedInstances3D.specSoleSelectionTarget]
        · simp only [SelectedInstances3D.setEnabled, hgc]
          simp [Gizmo3DController.setEnabled_currentObject, hc.1, hc.2, hm, h3,
            SelectedInstances3D.specSoleSelectionTarget]
      · simp [SelectedInstances3D.setEnabled, hgc, hc.1, hc.2, hm] at hg2
        subst hg2
        refine ⟨?_, ?_, ?_⟩
        · simp [SelectedInstances3D.setEnabled, hgc, hc.1, hc.2, hm,
            Gizmo3DController.setObject_isEnabled,
            Gizmo3DController.setEnabled_isEnabled]
        · simp only [SelectedInstances3D.setEnabled, hgc]
          simp [Gizmo3DController.setObject_attached,
            Gizmo3DController.setEnabled_isEnabled, hc.1, hc.2, hm,
            SelectedInstances3D.specSoleSelectionTarget]
        · simp only [SelectedInstances3D.setEnabled, hgc]
          simp [Gizmo3DController.setObject_currentObject, hc.1, hc.2, hm,
            SelectedInstances3D.specSoleSelectionTarget]
    · simp only [Bool.not_eq_true] at hc
      cases e with
      | false =>
          simp [SelectedInstances3D.setEnabled, hgc] at hg2
          subst hg2
          refine ⟨?_, ?_, ?_⟩
          · simp [SelectedInstances3D.setEnabled, hgc,
              Gizmo3DController.setObject_isEnabled,
              Gizmo3DController.setEnabled_isEnabled]
          · simp only [SelectedInstances3D.setEnabled, hgc]
            simp [Gizmo3DController.setObject_attached,
              SelectedInstances3D.specSoleSelectionTarget]
          · simp only [SelectedInstances3D.setEnabled, hgc]
            simp [Gizmo3DController.setObject_currentObject,
              SelectedInstances3D.specSoleSelectionTarget]
      | true =>
          have hlen : (s.selectedInstances.length == 1) = false := by
            simpa using hc
          have hspec : s.specSoleSelectionTarget = none := by
            simp [SelectedInstances3D.specSoleSelectionTarget, hlen]
          rw [hspec] at h2 h3
          simp [SelectedInstances3D.setEnabled, hgc, hlen] at hg2
          subst hg2
          refine ⟨?_, ?_, ?_⟩
          · simp [SelectedInstances3D.setEnabled, hgc, hlen,
              Gizmo3DController.setEnabled_isEnabled]
          · simp only [SelectedInstances3D.setEnabled, hgc]
            simp [Gizmo3DController.setEnabled_attached, hlen, h2, h3,
              SelectedInstances3D.specSoleSelectionTarget]
          · simp only [SelectedInstances3D.setEnabled, hgc]
            simp [Gizmo3DController.setEnabled_currentObject, hlen, h3,
              SelectedInstances3D.specSoleSelectionTarget]

theorem inv_step (s : SelectedInstances3D) (h : s.Inv) (op : SelOp) :
    (s.step op).Inv := by
  cases op with
  | update instances imap => exact inv_updateSelection s h instances imap
  | setMode m => exact inv_setMode s h m
  | toggleSpace => exact inv_toggleSpace s h
  | setEnabled e => exact inv_setEnabled s h e
  | dispose =>
      intro g hg
      simp [SelectedInstances3D.step, SelectedInstances3D.dispose] at hg

theorem inv_run_of (s : SelectedInstances3D) (h : s.Inv) (ops : List SelOp) :
    (s.run ops).Inv := by
  induction ops generalizing s with
  | nil => exact h
  | cons op rest ih => exact ih (s.step op) (inv_step s h op)

/-- C1: after any updateSelection or setEnabled call on a reachable
SelectedInstances3D whose gizmo controller exists, the object attached to the
gizmo widget equals the node mapped to the sole selected instance exactly
when syncing is enabled, the selection is a singleton and the map holds a
node for it, and is none in every other combination (this is the content of
specSoleSelectionTarget). -/
theorem selection_gizmo_attachment (has3D : Bool) (ops : List SelOp)
    (lastOp : SelOp) (_hop : lastOp.isSelectionSyncOp = true)
    (hav : ((SelectedInstances3D.mk3D has3D).run
        (ops ++ [lastOp])).isAvailable = true) :
    ((SelectedInstances3D.mk3D has3D).run (ops ++ [lastOp])).gizmoAttachedObject
      = ((SelectedInstances3D.mk3D has3D).run
          (ops ++ [lastOp])).specSoleSelectionTarget := by
  have hinv := inv_run_of (SelectedInstances3D.mk3D has3D) (inv_init has3D)
    (ops ++ [lastOp])
  rcases hg : ((SelectedInstances3D.mk3D has3D).run
      (ops ++ [lastOp])).gizmoController with _ | g
  · rw [SelectedInstances3D.isAvailable, hg] at hav
    simp at hav
  · rw [SelectedInstances3D.gizmoAttachedObject, hg]
    exact (hinv g hg).2.1

def c1Ops : List SelOp := [SelOp.setEnabled true]

def c1Last : SelOp :=
  SelOp.update [sampleInstance] [(sampleInstance, translateObj)]

/-- Witness for C1: enable syncing, then update with a singleton selection
whose instance is mapped; the attached object agrees with the specification
target (and is in fact that mapped node). -/
theorem selection_gizmo_attachment_witness :
    c1Last.isSelectionSyncOp = true ∧
    ((SelectedInstances3D.mk3D true).run (c1Ops ++ [c1Last])).isAvailable
      = true ∧
    ((SelectedInstances3D.mk3D true).run (c1Ops ++ [c1Last])).gizmoAttachedObject
      = ((SelectedInstances3D.mk3D true).run
          (c1Ops ++ [c1Last])).specSoleSelectionTarget ∧
    ((SelectedInstances3D.mk3D true).run (c1Ops ++ [c1Last])).gizmoAttachedObject
      = some translateObj := by
  refine ⟨by decide, by decide, ?_, by decide⟩
  exact selection_gizmo_attachment true c1Ops c1Last (by decide) (by decide)

def unavailableSel : SelectedInstances3D := SelectedInstances3D.mk3D false

/-- C5 counterexample: on a SelectedInstances3D constructed without a full 3D
context, setMode is not a no-op on observable state: it changes the value
returned by getCurrentMode. -/
theorem unavailable_setMode_not_noop :
    unavailableSel.isAvailable = false ∧
    (unavailableSel.setMode Mode.rotate).getCurrentMode
      ≠ unavailableSel.getCurrentMode := by
  decide

/-- C5 amended: without a full 3D context isAvailable is false, and every
operation leaves isAvailable, isDragging and getCurrentSpace at their
constant unavailable values (false, false, local); getCurrentMode is
unchanged by updateSelection, toggleSpace, setEnabled and dispose, but
setMode does record its argument, observable through getCurrentMode
(updateSelection also stores the selection and map internally, with no
observable effect). -/
theorem unavailable_observable_behavior (s : SelectedInstances3D)
    (h : s.gizmoController = none)
    (instances : List GdInitialInstance)
    (imap : List (GdInitialInstance × Object3D)) (m : Mode) (e : Bool) :
    s.isAvailable = false ∧
    s.isDragging = false ∧
    s.getCurrentSpace = Space.localSpace ∧
    (s.updateSelection instances imap).getCurrentMode = s.getCurrentMode ∧
    (s.updateSelection instances imap).getCurrentSpace = Space.localSpace ∧
    (s.updateSelection instances imap).isDragging = false ∧
    (s.updateSelection instances imap).isAvailable = false ∧
    (s.setMode m).getCurrentMode = m ∧
    (s.setMode m).getCurrentSpace = Space.localSpace ∧
    (s.setMode m).isDragging = false ∧
    (s.setMode m).isAvailable = false ∧
    s.toggleSpace.getCurrentMode = s.getCurrentMode ∧
    s.toggleSpace.getCurrentSpace = Space.localSpace ∧
    s.toggleSpace.isDragging = false ∧
    s.toggleSpace.isAvailable = false ∧
    (s.setEnabled e).getCurrentMode = s.getCurrentMode ∧
    (s.setEnabled e).getCurrentSpace = Space.localSpace ∧
    (s.setEnabled e).isDragging = false ∧
    (s.setEnabled e).isAvailable = false ∧
    s.dispose.getCurrentMode = s.getCurrentMode ∧
    s.dispose.getCurrentSpace = Space.localSpace ∧
    s.dispose.isDragging = false ∧
    s.dispose.isAvailable = false := by
  refine ⟨?_, ?_, ?_, ?_, ?_, ?_, ?_, ?_, ?_, ?_, ?_, ?_, ?_, ?_, ?_, ?_,
    ?_, ?_, ?_, ?_, ?_, ?_, ?_⟩ <;>
    simp [SelectedInstances3D.isAvailable, SelectedInstances3D.isDragging,
      SelectedInstances3D.getCurrentSpace, SelectedInstances3D.getCurrentMode,
      SelectedInstances3D.updateSelection, SelectedInstances3D.setMode,
      SelectedInstances3D.toggleSpace, SelectedInstances3D.setEnabled,
      SelectedInstances3D.dispose, h]

/-- Witness for C5 (amended): on a concrete unavailable SelectedInstances3D
with a nonempty argument selection, the observable getters behave as the
amended claim states. -/
theorem unavailable_observable_behavior_witness :
    unavailableSel.isAvailable = false ∧
    (unavailableSel.setMode Mode.scale).getCurrentMode = Mode.scale ∧
    (unavailableSel.updateSelection [sampleInstance]
        [(sampleInstance, translateObj)]).getCurrentMode
      = unavailableSel.getCurrentMode ∧
    (unavailableSel.setEnabled true).getCurrentSpace = Space.localSpace ∧
    unavailableSel.toggleSpace.isAvailable = false := by
  have h := unavailable_observable_behavior unavailableSel (by decide)
    [sampleInstance] [(sampleInstance, translateObj)] Mode.scale true
  exact ⟨h.1, h.2.2.2.2.2.2.2.1, h.2.2.2.1, h.2.2.2.2.2.2.2.2.2.2.2.2.2.2.2.2.1,
    h.2.2.2.2.2.2.2.2.2.2.2.2.2.2.1⟩
